import Mathlib

/-!
Verification of the stripe-checkout-poc repository: a shallow embedding of
the client components (StripeCheckout.tsx, CheckoutForm.tsx, types.ts) and
the backend relay (server/index.ts), with theorems about the intent-creation
guard, the confirmation handshake, and the relay endpoints.

Conventions of the embedding:
* JavaScript optional/absent JSON fields become Option values.
* The JS idiom `x || fallback` on an optional string (absent or empty means
  the fallback is used) is `orFallback`.
* Network collaborators (the relay as seen by the client, the payment
  processor as seen by the relay) are passed in as functions; the requests a
  routine issues to them are returned explicitly as a list, so that
  "no network call" is the list being empty.
* Asynchrony is modelled by splitting each async routine at its await point:
  a start phase (state written synchronously before the await) and a resolve
  phase (the completion handler applied to whatever state is current when the
  response arrives).
-/

namespace StripeCheckoutPoc

/-! ## types.ts -/

/-- `PaymentStatus` from src/types.ts line 25:
`idle | processing | succeeded | failed`. -/
inductive PaymentStatus
  | idle
  | processing
  | succeeded
  | failed
deriving DecidableEq, Repr

/-! ## Shared JS idiom -/

/-- JS `x || fallback` for an optional string field: the fallback is used
when the field is absent or the empty string (both falsy). -/
def orFallback : Option String → String → String
  | some m, fb => if m = "" then fb else m
  | none, fb => fb

/-! ## Frontend: StripeCheckout.tsx -/

/-- Local state of the StripeCheckout component (lines 28-30):
clientSecret, error and loading. -/
structure CheckoutState where
  clientSecret : String
  error : String
  loading : Bool
deriving DecidableEq, Repr

/-- One request issued by the frontend to the relay: the fetch path and the
JSON body fields (lines 49-56). -/
structure ClientRequest where
  path : String
  amount : Int
  currency : String
deriving DecidableEq, Repr

/-- The relay response as consumed by createPaymentIntent: `response.ok`,
the `error` field read when not ok (line 59-60), and the `clientSecret`
field read when ok (line 63-64). -/
structure RelayResponse where
  ok : Bool
  errorField : Option String
  clientSecret : String
deriving DecidableEq, Repr

/-- What the useEffect body does (StripeCheckout.tsx lines 32-40): below the
minimum it only sets the error and stops loading; otherwise it invokes
createPaymentIntent. -/
inductive EffectAction
  | setErrorOnly (msg : String)
  | callCreatePaymentIntent
deriving DecidableEq, Repr

/-- The amount guard in the useEffect (lines 33-37): totalAmount below 50
sets the minimum-order error and returns without any network call. -/
def checkoutEffect (totalAmount : Int) : EffectAction :=
  if totalAmount < 50 then .setErrorOnly "Minimum order amount is $0.50"
  else .callCreatePaymentIntent

/-- State written by the useEffect when the guard trips (lines 34-35). -/
def checkoutEffectState (totalAmount : Int) (s : CheckoutState) : CheckoutState :=
  if totalAmount < 50 then
    { s with error := "Minimum order amount is $0.50", loading := false }
  else s

/-- State written synchronously by createPaymentIntent before its await
(lines 44-45): setLoading(true), setError(empty). -/
def createIntentStart (s : CheckoutState) : CheckoutState :=
  { s with loading := true, error := "" }

/-- The completion handler of createPaymentIntent (lines 58-71), applied to
whatever state is current when the fetch resolves: on ok it writes the
response clientSecret; otherwise it writes the error field (with the JS
fallback); finally it stops loading. There is no attempt-identity check of
any kind before writing. -/
def onCreateIntentResolved (resp : RelayResponse) (s : CheckoutState) : CheckoutState :=
  if resp.ok then
    { s with clientSecret := resp.clientSecret, loading := false }
  else
    { s with error := orFallback resp.errorField "Failed to create payment intent",
             loading := false }

/-- createPaymentIntent (StripeCheckout.tsx lines 42-72) run to completion:
it always issues exactly one fetch to the relay, with body
`{amount: totalAmount, currency: "usd"}`, and has no amount guard of its
own. Returns the final state and the list of requests issued. -/
def createPaymentIntent (totalAmount : Int) (relay : ClientRequest → RelayResponse)
    (s : CheckoutState) : CheckoutState × List ClientRequest :=
  let req : ClientRequest :=
    { path := "/create-payment-intent", amount := totalAmount, currency := "usd" }
  (onCreateIntentResolved (relay req) (createIntentStart s), [req])

/-- The retry button (line 104): its onClick invokes createPaymentIntent
directly, bypassing the useEffect amount guard. -/
def retryClick (totalAmount : Int) (relay : ClientRequest → RelayResponse)
    (s : CheckoutState) : CheckoutState × List ClientRequest :=
  createPaymentIntent totalAmount relay s

/-! ## Frontend: CheckoutForm.tsx -/

/-- The error object of a stripe.confirmPayment result: its message field is
optional. -/
structure StripeError where
  message : Option String
deriving DecidableEq, Repr

/-- The paymentIntent object of a stripe.confirmPayment result, as read by
the code (only its status, line 59). -/
structure ConfirmedIntent where
  status : String
deriving DecidableEq, Repr

/-- The resolved value of stripe.confirmPayment (line 48): an optional error
and an optional paymentIntent. -/
structure ConfirmResult where
  error : Option StripeError
  paymentIntent : Option ConfirmedIntent
deriving DecidableEq, Repr

/-- How the awaited stripe.confirmPayment call ends: it resolves with a
ConfirmResult, or it throws (the catch branch, lines 64-68; the thrown
value carries a message only when it is an Error). -/
inductive ConfirmOutcome
  | resolved (r : ConfirmResult)
  | threw (msg : Option String)
deriving DecidableEq, Repr

/-- Local state of the CheckoutForm component (lines 33-34). -/
structure FormState where
  paymentStatus : PaymentStatus
  message : String
deriving DecidableEq, Repr

/-- The not-ready guard condition of handleSubmit (line 39): stripe or
elements not yet available. -/
def stripeNotReady (stripe elements : Bool) : Bool :=
  !stripe || !elements

/-- State written when the not-ready guard trips (lines 40-41): only the
message is set; the status is untouched and handleSubmit returns. -/
def notReadyState (s : FormState) : FormState :=
  { s with message := "Stripe is not loaded. Please refresh the page." }

/-- State written synchronously before awaiting stripe.confirmPayment
(lines 44-45): status processing, message cleared. -/
def confirmingState : FormState :=
  { paymentStatus := .processing, message := "" }

/-- The outcome dispatch of handleSubmit after the await (lines 56-68),
applied to the current state. Returns the new state and how many times the
onSuccess callback was invoked. On an error result: status failed, message
is the error message with the JS fallback (line 57). On a succeeded intent:
status succeeded, success message, onSuccess invoked once (lines 59-62).
Any other resolution leaves the state untouched. On a throw: status failed,
message from the thrown value (lines 64-67). -/
def submitFinish (outcome : ConfirmOutcome) (s : FormState) : FormState × Nat :=
  match outcome with
  | .resolved r =>
    match r.error with
    | some e =>
      ({ paymentStatus := .failed,
         message := orFallback e.message "An error occurred during payment" }, 0)
    | none =>
      match r.paymentIntent with
      | some pi =>
        if pi.status = "succeeded" then
          ({ paymentStatus := .succeeded,
             message := "Payment successful! Thank you for your purchase." }, 1)
        else (s, 0)
      | none => (s, 0)
  | .threw m =>
    ({ paymentStatus := .failed,
       message := m.getD "An unexpected error occurred" }, 0)

/-- handleSubmit (CheckoutForm.tsx lines 36-69) run to completion, with the
eventual outcome of stripe.confirmPayment supplied as a parameter. Returns
the final form state, the number of stripe.confirmPayment calls issued, and
the number of onSuccess invocations. -/
def handleSubmit (stripe elements : Bool) (outcome : ConfirmOutcome)
    (s : FormState) : FormState × Nat × Nat :=
  if stripeNotReady stripe elements then (notReadyState s, 0, 0)
  else
    let fin := submitFinish outcome confirmingState
    (fin.1, 1, fin.2)

/-- The disabled attribute of the pay button (lines 111-114):
`!stripe || isProcessing || isSucceeded`. -/
def payButtonDisabled (stripe : Bool) (s : FormState) : Bool :=
  !stripe || decide (s.paymentStatus = .processing)
          || decide (s.paymentStatus = .succeeded)

/-- UI-level state for the confirmation flow: the form state plus counters
of processor-facing confirmPayment calls and onSuccess invocations. -/
structure UiState where
  form : FormState
  confirmCalls : Nat
  onSuccessCalls : Nat
deriving DecidableEq, Repr

/-- A user click on the pay button. Per the disabled attribute a click on a
disabled button does not submit the form, so handleSubmit runs only when
the button is enabled. A submission that passes the not-ready guard writes
the confirming state synchronously and issues exactly one
stripe.confirmPayment call before suspending at its await. -/
def uiClickStart (stripe elements : Bool) (u : UiState) : UiState :=
  if payButtonDisabled stripe u.form then u
  else if stripeNotReady stripe elements then
    { u with form := notReadyState u.form }
  else
    { u with form := confirmingState, confirmCalls := u.confirmCalls + 1 }

/-- Completion of the in-flight stripe.confirmPayment call: the outcome
dispatch applied to the current state. -/
def uiResolve (outcome : ConfirmOutcome) (u : UiState) : UiState :=
  let fin := submitFinish outcome u.form
  { u with form := fin.1, onSuccessCalls := u.onSuccessCalls + fin.2 }

/-! ## Backend relay: server/index.ts -/

/-- The processor-side PaymentIntent as used by the relay: the fields the
two routes read (id, client_secret, status, amount, currency). -/
structure StripeIntent where
  id : String
  client_secret : String
  status : String
  amount : Int
  currency : String
deriving DecidableEq, Repr

/-- Result of a call into the Stripe SDK: the resolved value, or a thrown
error whose message field is optional (the routes apply a fallback when it
is absent or empty). -/
inductive StripeResult (α : Type)
  | ok (value : α)
  | err (message : Option String)
deriving DecidableEq, Repr

/-- An HTTP response: status code and JSON body. -/
structure HttpResponse (β : Type) where
  status : Nat
  body : β
deriving DecidableEq, Repr

/-- Request body of POST /api/create-payment-intent (line 62): amount,
currency and paymentMethodTypes are all optional JSON fields; currency
defaults to usd. -/
structure CreateIntentReq where
  amount : Option Int
  currency : Option String
  paymentMethodTypes : Option (List String)
deriving DecidableEq, Repr

/-- Response body of POST /api/create-payment-intent: either
`{clientSecret, paymentIntentId}` (lines 83-86) or `{error}` (lines 66-68
and 89-91). -/
inductive CreateIntentBody
  | success (clientSecret : String) (paymentIntentId : String)
  | failure (error : String)
deriving DecidableEq, Repr

/-- POST /api/create-payment-intent (server/index.ts lines 60-93). The
processor is passed as a function from the create parameters (amount,
currency, paymentMethodTypes) to a StripeResult; the calls the route makes
to it are returned as a list. The guard `!amount || amount < 50` (line 65)
rejects an absent amount, a zero amount (falsy in JS) and any amount below
50 with HTTP 400 before any processor call. -/
def createPaymentIntentRoute
    (processor : Int → String → Option (List String) → StripeResult StripeIntent)
    (req : CreateIntentReq) :
    HttpResponse CreateIntentBody × List (Int × String × Option (List String)) :=
  match req.amount with
  | none =>
    ({ status := 400, body := .failure "Amount must be at least $0.50 USD" }, [])
  | some a =>
    if a = 0 ∨ a < 50 then
      ({ status := 400, body := .failure "Amount must be at least $0.50 USD" }, [])
    else
      let currency := req.currency.getD "usd"
      match processor a currency req.paymentMethodTypes with
      | .ok pi =>
        ({ status := 200, body := .success pi.client_secret pi.id },
         [(a, currency, req.paymentMethodTypes)])
      | .err m =>
        ({ status := 500,
           body := .failure (orFallback m "Failed to create payment intent") },
         [(a, currency, req.paymentMethodTypes)])

/-- Request body of POST /api/confirm-payment (line 103). -/
structure ConfirmPaymentReq where
  paymentIntentId : Option String
deriving DecidableEq, Repr

/-- Response body of POST /api/confirm-payment: either
`{status, amount, currency}` (lines 111-115) or `{error}` (lines 106,
118-120). -/
inductive ConfirmPaymentBody
  | success (status : String) (amount : Int) (currency : String)
  | failure (error : String)
deriving DecidableEq, Repr

/-- The set of intents held by the processor, keyed by id. -/
def IntentStore : Type := String → Option StripeIntent

/-- stripe.paymentIntents.retrieve (line 109) modelled over the store: a
read that resolves with the stored intent, or throws when the id is
unknown. -/
def retrieveIntent (store : IntentStore) (id : String) : StripeResult StripeIntent :=
  match store id with
  | some pi => .ok pi
  | none => .err none

/-- POST /api/confirm-payment (server/index.ts lines 101-122). The guard
`!paymentIntentId` (line 105) rejects an absent or empty id with HTTP 400.
Otherwise the route performs a single retrieve — a pure read — and echoes
the status, amount and currency of the intent. The store is threaded
through and returned so that freedom from side effects is visible: every
branch returns it unchanged. -/
def confirmPaymentRoute (store : IntentStore) (req : ConfirmPaymentReq) :
    HttpResponse ConfirmPaymentBody × IntentStore :=
  match req.paymentIntentId with
  | none =>
    ({ status := 400, body := .failure "paymentIntentId is required" }, store)
  | some id =>
    if id = "" then
      ({ status := 400, body := .failure "paymentIntentId is required" }, store)
    else
      match retrieveIntent store id with
      | .ok pi =>
        ({ status := 200, body := .success pi.status pi.amount pi.currency }, store)
      | .err m =>
        ({ status := 500,
           body := .failure (orFallback m "Failed to confirm payment") }, store)

/-! ## Concrete collaborators used by closed counterexamples -/

/-- A relay that rejects every request the way the server rejects a
below-minimum amount: HTTP not ok with the server error string. -/
def relayRejecting : ClientRequest → RelayResponse :=
  fun _ => { ok := false, errorField := some "Amount must be at least $0.50 USD",
             clientSecret := "" }

/-- A relay response that succeeds with the given client secret. -/
def okResponse (secret : String) : RelayResponse :=
  { ok := true, errorField := none, clientSecret := secret }

/-- A processor that creates every requested intent. -/
def processorFixed : Int → String → Option (List String) → StripeResult StripeIntent :=
  fun a c _ =>
    .ok { id := "pi_1", client_secret := "cs_1", status := "requires_payment_method",
          amount := a, currency := c }

/-- A store holding a single already-resolved intent. -/
def storeOne : IntentStore :=
  fun i =>
    if i = "pi_1" then
      some { id := "pi_1", client_secret := "cs_1", status := "succeeded",
             amount := 9996, currency := "usd" }
    else none

/-! ## Theorems -/

/-- Claim C1, counterexample: with amount 25 (below the minimum), the retry
entry point — the Try Again button, whose onClick invokes
createPaymentIntent directly — issues a network call to the relay, so
intent creation does not fail locally without a network call from every
entry point. -/
theorem retry_below_minimum_issues_network_call :
    (retryClick 25 relayRejecting
        { clientSecret := "", error := "Minimum order amount is $0.50",
          loading := false }).2 =
      [{ path := "/create-payment-intent", amount := 25, currency := "usd" }] := by
  rfl

/-- Claim C1, amended: for every amount below 50, the effect-driven entry
point fails locally — the useEffect guard sets the error message
"Minimum order amount is $0.50" (which mentions the minimum) and performs
no network call — but the retry entry point invokes createPaymentIntent
unconditionally, which always issues exactly one network call to the relay
regardless of the amount. -/
theorem below_minimum_guard_and_retry (a : Int)
    (relay : ClientRequest → RelayResponse) (s : CheckoutState) (h : a < 50) :
    checkoutEffect a = .setErrorOnly "Minimum order amount is $0.50" ∧
    (checkoutEffectState a s).error = "Minimum order amount is $0.50" ∧
    (retryClick a relay s).2.length = 1 := by
  refine ⟨?_, ?_, rfl⟩ <;> simp [checkoutEffect, checkoutEffectState, h]

/-- Witness for below_minimum_guard_and_retry at amount 25. -/
theorem below_minimum_guard_and_retry_witness :
    (25 : Int) < 50 ∧
    (checkoutEffect 25 = .setErrorOnly "Minimum order amount is $0.50" ∧
     (checkoutEffectState 25
        { clientSecret := "", error := "", loading := true }).error =
       "Minimum order amount is $0.50" ∧
     (retryClick 25 relayRejecting
        { clientSecret := "", error := "", loading := true }).2.length = 1) :=
  ⟨by decide,
   below_minimum_guard_and_retry 25 relayRejecting
     { clientSecret := "", error := "", loading := true } (by decide)⟩

/-- Claim C2: from an idle form, the first click on the pay button issues
exactly one processor-facing stripe.confirmPayment call and enters the
processing state; while that call is in flight, any further click — the
repeated confirm request — is rejected by the disabled pay button as a
no-op: no state change and no second processor call. -/
theorem confirming_rejects_repeated_submit (u : UiState)
    (h : u.form.paymentStatus = .idle) :
    (uiClickStart true true u).confirmCalls = u.confirmCalls + 1 ∧
    (uiClickStart true true u).form.paymentStatus = .processing ∧
    ∀ stripe elements : Bool,
      uiClickStart stripe elements (uiClickStart true true u) =
        uiClickStart true true u := by
  refine ⟨?_, ?_, ?_⟩ <;>
    simp [uiClickStart, stripeNotReady, payButtonDisabled, confirmingState, h]

/-- Witness for confirming_rejects_repeated_submit at a concrete idle
state. -/
theorem confirming_rejects_repeated_submit_witness :
    (({ form := { paymentStatus := .idle, message := "" }, confirmCalls := 0,
        onSuccessCalls := 0 } : UiState).form.paymentStatus = .idle) ∧
    ((uiClickStart true true
        { form := { paymentStatus := .idle, message := "" }, confirmCalls := 0,
          onSuccessCalls := 0 }).confirmCalls =
      ({ form := { paymentStatus := .idle, message := "" }, confirmCalls := 0,
         onSuccessCalls := 0 } : UiState).confirmCalls + 1 ∧
     (uiClickStart true true
        { form := { paymentStatus := .idle, message := "" }, confirmCalls := 0,
          onSuccessCalls := 0 }).form.paymentStatus = .processing ∧
     ∀ stripe elements : Bool,
       uiClickStart stripe elements
         (uiClickStart true true
           { form := { paymentStatus := .idle, message := "" }, confirmCalls := 0,
             onSuccessCalls := 0 }) =
         uiClickStart true true
           { form := { paymentStatus := .idle, message := "" }, confirmCalls := 0,
             onSuccessCalls := 0 }) :=
  ⟨rfl,
   confirming_rejects_repeated_submit
     { form := { paymentStatus := .idle, message := "" }, confirmCalls := 0,
       onSuccessCalls := 0 } rfl⟩

/-- Claim C3, counterexample: attempt A is in flight when the amount
changes; attempt B starts and resolves, writing the newer secret; then the
superseded attempt A resolves late and its completion handler overwrites
the newer clientSecret — the late response does mutate the Checkout
Attempt state, since no attempt-identity token exists. -/
theorem late_response_clobbers_newer_attempt :
    (onCreateIntentResolved (okResponse "secret_B")
        (createIntentStart
          { clientSecret := "", error := "", loading := false })).clientSecret =
      "secret_B" ∧
    (onCreateIntentResolved (okResponse "secret_A")
        (onCreateIntentResolved (okResponse "secret_B")
          (createIntentStart
            { clientSecret := "", error := "",
              loading := false }))).clientSecret = "secret_A" ∧
    "secret_A" ≠ "secret_B" := by
  exact ⟨rfl, rfl, by decide⟩

/-- Claim C3, amended: the completion handler of createPaymentIntent checks
no attempt identity at all — a successful response is written to the state
unconditionally, whatever attempt it belongs to, so a late response from a
superseded request does overwrite the newer attempt state. -/
theorem resolved_response_written_unconditionally (resp : RelayResponse)
    (s : CheckoutState) (h : resp.ok = true) :
    onCreateIntentResolved resp s =
      { s with clientSecret := resp.clientSecret, loading := false } := by
  simp [onCreateIntentResolved, h]

/-- Witness for resolved_response_written_unconditionally at a concrete
successful response. -/
theorem resolved_response_written_unconditionally_witness :
    (okResponse "s1").ok = true ∧
    onCreateIntentResolved (okResponse "s1")
        { clientSecret := "s0", error := "", loading := true } =
      { clientSecret := "s1", error := "", loading := false } :=
  ⟨rfl,
   resolved_response_written_unconditionally (okResponse "s1")
     { clientSecret := "s0", error := "", loading := true } rfl⟩

/-- Claim C4, counterexample: the processor reports an error whose message
is the empty string; the displayed message is the invented fallback
"An error occurred during payment", not the reported message character for
character. -/
theorem empty_error_message_not_passed_through :
    (submitFinish
        (.resolved { error := some { message := some "" }, paymentIntent := none })
        confirmingState).1.message = "An error occurred during payment" ∧
    "An error occurred during payment" ≠ "" := by
  exact ⟨rfl, by decide⟩

/-- Claim C4, amended: whenever the processor reports an error, the status
becomes failed; the displayed message equals the reported message verbatim
when that message is present and non-empty, and is the fallback
"An error occurred during payment" when the reported message is absent or
empty. -/
theorem processor_error_sets_failed_and_message (r : ConfirmResult)
    (e : StripeError) (s : FormState) (h : r.error = some e) :
    (submitFinish (.resolved r) s).1.paymentStatus = .failed ∧
    (∀ m : String, e.message = some m → m ≠ "" →
      (submitFinish (.resolved r) s).1.message = m) ∧
    ((e.message = none ∨ e.message = some "") →
      (submitFinish (.resolved r) s).1.message =
        "An error occurred during payment") := by
  refine ⟨?_, ?_, ?_⟩
  · simp [submitFinish, h]
  · intro m hm hne
    simp [submitFinish, h, hm, orFallback, hne]
  · rintro (hm | hm) <;> simp [submitFinish, h, hm, orFallback]

/-- Witness for processor_error_sets_failed_and_message at a concrete
declined-card error. -/
theorem processor_error_sets_failed_and_message_witness :
    (({ error := some { message := some "Your card was declined." },
        paymentIntent := none } : ConfirmResult).error =
      some { message := some "Your card was declined." }) ∧
    ((submitFinish
        (.resolved { error := some { message := some "Your card was declined." },
                     paymentIntent := none })
        confirmingState).1.paymentStatus = .failed ∧
     (∀ m : String,
       ({ message := some "Your card was declined." } : StripeError).message =
         some m → m ≠ "" →
       (submitFinish
          (.resolved { error := some { message := some "Your card was declined." },
                       paymentIntent := none })
          confirmingState).1.message = m) ∧
     ((({ message := some "Your card was declined." } : StripeError).message =
         none ∨
       ({ message := some "Your card was declined." } : StripeError).message =
         some "") →
       (submitFinish
          (.resolved { error := some { message := some "Your card was declined." },
                       paymentIntent := none })
          confirmingState).1.message = "An error occurred during payment")) :=
  ⟨rfl,
   processor_error_sets_failed_and_message
     { error := some { message := some "Your card was declined." },
       paymentIntent := none }
     { message := some "Your card was declined." } confirmingState rfl⟩

/-- Claim C5: a confirm that resolves with no error and a succeeded
payment intent sets the status to succeeded and invokes the registered
onSuccess callback exactly once. -/
theorem succeeded_invokes_callback_exactly_once (r : ConfirmResult)
    (pi : ConfirmedIntent) (s : FormState) (herr : r.error = none)
    (hpi : r.paymentIntent = some pi) (hst : pi.status = "succeeded") :
    (handleSubmit true true (.resolved r) s).1.paymentStatus = .succeeded ∧
    (handleSubmit true true (.resolved r) s).2.2 = 1 := by
  constructor <;> simp [handleSubmit, stripeNotReady, submitFinish, herr, hpi, hst]

/-- Witness for succeeded_invokes_callback_exactly_once at a concrete
succeeded resolution. -/
theorem succeeded_invokes_callback_exactly_once_witness :
    (({ error := none, paymentIntent := some { status := "succeeded" } } :
        ConfirmResult).error = none) ∧
    (({ error := none, paymentIntent := some { status := "succeeded" } } :
        ConfirmResult).paymentIntent = some { status := "succeeded" }) ∧
    (({ status := "succeeded" } : ConfirmedIntent).status = "succeeded") ∧
    ((handleSubmit true true
        (.resolved { error := none, paymentIntent := some { status := "succeeded" } })
        { paymentStatus := .idle, message := "" }).1.paymentStatus = .succeeded ∧
     (handleSubmit true true
        (.resolved { error := none, paymentIntent := some { status := "succeeded" } })
        { paymentStatus := .idle, message := "" }).2.2 = 1) :=
  ⟨rfl, rfl, rfl,
   succeeded_invokes_callback_exactly_once
     { error := none, paymentIntent := some { status := "succeeded" } }
     { status := "succeeded" } { paymentStatus := .idle, message := "" }
     rfl rfl rfl⟩

/-- Claim C6: when stripe or elements is not initialized, handleSubmit
fails immediately — it sets only the not-ready message, leaves the status
unchanged, issues no stripe.confirmPayment call and invokes no callback. -/
theorem not_ready_guard_no_network (stripe elements : Bool)
    (outcome : ConfirmOutcome) (s : FormState)
    (h : stripe = false ∨ elements = false) :
    (handleSubmit stripe elements outcome s).1.message =
      "Stripe is not loaded. Please refresh the page." ∧
    (handleSubmit stripe elements outcome s).1.paymentStatus = s.paymentStatus ∧
    (handleSubmit stripe elements outcome s).2.1 = 0 ∧
    (handleSubmit stripe elements outcome s).2.2 = 0 := by
  have hn : stripeNotReady stripe elements = true := by
    rcases h with h | h <;> simp [stripeNotReady, h]
  simp [handleSubmit, hn, notReadyState]

/-- Witness for not_ready_guard_no_network with stripe not loaded. -/
theorem not_ready_guard_no_network_witness :
    ((false = false) ∨ (true = false)) ∧
    ((handleSubmit false true
        (.resolved { error := none, paymentIntent := none })
        { paymentStatus := .idle, message := "" }).1.message =
      "Stripe is not loaded. Please refresh the page." ∧
     (handleSubmit false true
        (.resolved { error := none, paymentIntent := none })
        { paymentStatus := .idle, message := "" }).1.paymentStatus =
       ({ paymentStatus := .idle, message := "" } : FormState).paymentStatus ∧
     (handleSubmit false true
        (.resolved { error := none, paymentIntent := none })
        { paymentStatus := .idle, message := "" }).2.1 = 0 ∧
     (handleSubmit false true
        (.resolved { error := none, paymentIntent := none })
        { paymentStatus := .idle, message := "" }).2.2 = 0) :=
  ⟨Or.inl rfl,
   not_ready_guard_no_network false true
     (.resolved { error := none, paymentIntent := none })
     { paymentStatus := .idle, message := "" } (Or.inl rfl)⟩

/-- Claim C7: the relay create-intent route enforces the minimum
server-side — any amount below 50 gets HTTP 400 with a human-readable
error string and the processor is not called; any amount of at least 50
reaches the processor, and the route answers HTTP 200 with clientSecret
and paymentIntentId on success or an error-string body with HTTP 500 on
processor failure. -/
theorem create_intent_route_validation
    (processor : Int → String → Option (List String) → StripeResult StripeIntent)
    (req : CreateIntentReq) (a : Int) (ha : req.amount = some a) :
    (a < 50 →
      (createPaymentIntentRoute processor req).1 =
        { status := 400, body := .failure "Amount must be at least $0.50 USD" } ∧
      (createPaymentIntentRoute processor req).2 = []) ∧
    (50 ≤ a →
      match processor a (req.currency.getD "usd") req.paymentMethodTypes with
      | .ok pi =>
          (createPaymentIntentRoute processor req).1 =
            { status := 200, body := .success pi.client_secret pi.id }
      | .err m =>
          (createPaymentIntentRoute processor req).1.status = 500 ∧
          (createPaymentIntentRoute processor req).1.body =
            .failure (orFallback m "Failed to create payment intent")) := by
  constructor
  · intro hlt
    have hc : a = 0 ∨ a < 50 := Or.inr hlt
    constructor <;> simp [createPaymentIntentRoute, ha, hc]
  · intro hge
    have hc : ¬(a = 0 ∨ a < 50) := by omega
    rcases hp : processor a (req.currency.getD "usd") req.paymentMethodTypes with
      pi | m <;>
      simp [createPaymentIntentRoute, ha, hc, hp]

/-- Witness for create_intent_route_validation at amount 9996 with a
processor that creates the intent. -/
theorem create_intent_route_validation_witness :
    (({ amount := some 9996, currency := some "usd", paymentMethodTypes := none } :
        CreateIntentReq).amount = some 9996) ∧
    (((9996 : Int) < 50 →
      (createPaymentIntentRoute processorFixed
          { amount := some 9996, currency := some "usd",
            paymentMethodTypes := none }).1 =
        { status := 400, body := .failure "Amount must be at least $0.50 USD" } ∧
      (createPaymentIntentRoute processorFixed
          { amount := some 9996, currency := some "usd",
            paymentMethodTypes := none }).2 = []) ∧
    ((50 : Int) ≤ 9996 →
      match processorFixed 9996
          (({ amount := some 9996, currency := some "usd",
              paymentMethodTypes := none } : CreateIntentReq).currency.getD "usd")
          ({ amount := some 9996, currency := some "usd",
             paymentMethodTypes := none } : CreateIntentReq).paymentMethodTypes with
      | .ok pi =>
          (createPaymentIntentRoute processorFixed
              { amount := some 9996, currency := some "usd",
                paymentMethodTypes := none }).1 =
            { status := 200, body := .success pi.client_secret pi.id }
      | .err m =>
          (createPaymentIntentRoute processorFixed
              { amount := some 9996, currency := some "usd",
                paymentMethodTypes := none }).1.status = 500 ∧
          (createPaymentIntentRoute processorFixed
              { amount := some 9996, currency := some "usd",
                paymentMethodTypes := none }).1.body =
            .failure (orFallback m "Failed to create payment intent"))) :=
  ⟨rfl,
   create_intent_route_validation processorFixed
     { amount := some 9996, currency := some "usd", paymentMethodTypes := none }
     9996 rfl⟩

/-- Claim C8: the confirm-payment route is a pure read — it returns the
store unchanged — and is idempotent on an already-resolved intent: a
repeated call returns the identical terminal response echoing the stored
status. -/
theorem confirm_status_pure_and_idempotent (store : IntentStore) (id : String)
    (pi : StripeIntent) (hid : id ≠ "") (hstore : store id = some pi)
    (_hterm : pi.status = "succeeded" ∨ pi.status = "canceled") :
    (confirmPaymentRoute store { paymentIntentId := some id }).2 = store ∧
    (confirmPaymentRoute store { paymentIntentId := some id }).1 =
      { status := 200, body := .success pi.status pi.amount pi.currency } ∧
    (confirmPaymentRoute
        (confirmPaymentRoute store { paymentIntentId := some id }).2
        { paymentIntentId := some id }).1 =
      (confirmPaymentRoute store { paymentIntentId := some id }).1 := by
  refine ⟨?_, ?_, ?_⟩ <;>
    simp [confirmPaymentRoute, retrieveIntent, hid, hstore]

/-- Witness for confirm_status_pure_and_idempotent on a store holding one
succeeded intent. -/
theorem confirm_status_pure_and_idempotent_witness :
    ("pi_1" ≠ "") ∧
    (storeOne "pi_1" =
      some { id := "pi_1", client_secret := "cs_1", status := "succeeded",
             amount := 9996, currency := "usd" }) ∧
    (("succeeded" = "succeeded") ∨ ("succeeded" = "canceled")) ∧
    ((confirmPaymentRoute storeOne { paymentIntentId := some "pi_1" }).2 =
        storeOne ∧
     (confirmPaymentRoute storeOne { paymentIntentId := some "pi_1" }).1 =
       { status := 200, body := .success "succeeded" 9996 "usd" } ∧
     (confirmPaymentRoute
         (confirmPaymentRoute storeOne { paymentIntentId := some "pi_1" }).2
         { paymentIntentId := some "pi_1" }).1 =
       (confirmPaymentRoute storeOne { paymentIntentId := some "pi_1" }).1) :=
  ⟨by decide, rfl, Or.inl rfl,
   confirm_status_pure_and_idempotent storeOne "pi_1"
     { id := "pi_1", client_secret := "cs_1", status := "succeeded",
       amount := 9996, currency := "usd" }
     (by decide) rfl (Or.inl rfl)⟩

/-- Claim C9: when stripe.confirmPayment resolves with no error and the
payment intent is absent or has a status other than succeeded, handleSubmit
leaves the form in the confirming state — status processing, empty message.
The PaymentStatus enum has only idle, processing, succeeded and failed (no
awaiting-action value), and every relay request the frontend issues targets
the create-intent path, never the status-reconciliation path. -/
theorem non_succeeded_resolution_stays_processing (r : ConfirmResult)
    (s : FormState) (herr : r.error = none)
    (hns : ∀ pi : ConfirmedIntent, r.paymentIntent = some pi →
      pi.status ≠ "succeeded") :
    (handleSubmit true true (.resolved r) s).1 = confirmingState ∧
    (∀ ps : PaymentStatus,
      ps = .idle ∨ ps = .processing ∨ ps = .succeeded ∨ ps = .failed) ∧
    (∀ (a : Int) (relay : ClientRequest → RelayResponse) (st : CheckoutState),
      ∀ req ∈ (createPaymentIntent a relay st).2,
        req.path = "/create-payment-intent" ∧ req.path ≠ "/confirm-payment") := by
  refine ⟨?_, ?_, ?_⟩
  · rcases hpi : r.paymentIntent with _ | pi
    · simp [handleSubmit, stripeNotReady, submitFinish, herr, hpi]
    · have hne := hns pi hpi
      simp [handleSubmit, stripeNotReady, submitFinish, herr, hpi, hne]
  · intro ps; cases ps <;> simp
  · intro a relay st req hreq
    simp [createPaymentIntent] at hreq
    subst hreq
    exact ⟨rfl, by simp⟩

/-- Witness for non_succeeded_resolution_stays_processing at a resolution
whose intent status is processing. -/
theorem non_succeeded_resolution_stays_processing_witness :
    (({ error := none, paymentIntent := some { status := "processing" } } :
        ConfirmResult).error = none) ∧
    (∀ pi : ConfirmedIntent,
      ({ error := none, paymentIntent := some { status := "processing" } } :
        ConfirmResult).paymentIntent = some pi → pi.status ≠ "succeeded") ∧
    ((handleSubmit true true
        (.resolved
          { error := none, paymentIntent := some { status := "processing" } })
        { paymentStatus := .idle, message := "" }).1 = confirmingState ∧
     (∀ ps : PaymentStatus,
       ps = .idle ∨ ps = .processing ∨ ps = .succeeded ∨ ps = .failed) ∧
     (∀ (a : Int) (relay : ClientRequest → RelayResponse) (st : CheckoutState),
       ∀ req ∈ (createPaymentIntent a relay st).2,
         req.path = "/create-payment-intent" ∧ req.path ≠ "/confirm-payment")) :=
  ⟨rfl,
   fun pi hp => by
     rw [Option.some_inj] at hp
     subst hp
     decide,
   non_succeeded_resolution_stays_processing
     { error := none, paymentIntent := some { status := "processing" } }
     { paymentStatus := .idle, message := "" } rfl
     (fun pi hp => by
       rw [Option.some_inj] at hp
       subst hp
       decide)⟩

/-- Claim C10: a create-intent request that omits the currency field is not
rejected for that reason — with a valid amount the route reaches the
processor exactly once, with the default currency usd. -/
theorem missing_currency_defaults_to_usd
    (processor : Int → String → Option (List String) → StripeResult StripeIntent)
    (a : Int) (pmt : Option (List String)) (h : 50 ≤ a) :
    (createPaymentIntentRoute processor
        { amount := some a, currency := none, paymentMethodTypes := pmt }).1.status ≠
      400 ∧
    (createPaymentIntentRoute processor
        { amount := some a, currency := none, paymentMethodTypes := pmt }).2 =
      [(a, "usd", pmt)] := by
  have hc : ¬(a = 0 ∨ a < 50) := by omega
  rcases hp : processor a "usd" pmt with pi | m <;>
    constructor <;>
    simp [createPaymentIntentRoute, hc, hp]

/-- Witness for missing_currency_defaults_to_usd at amount 9996. -/
theorem missing_currency_defaults_to_usd_witness :
    (50 : Int) ≤ 9996 ∧
    ((createPaymentIntentRoute processorFixed
        { amount := some 9996, currency := none,
          paymentMethodTypes := none }).1.status ≠ 400 ∧
     (createPaymentIntentRoute processorFixed
        { amount := some 9996, currency := none,
          paymentMethodTypes := none }).2 = [(9996, "usd", none)]) :=
  ⟨by decide, missing_currency_defaults_to_usd processorFixed 9996 none (by decide)⟩

end StripeCheckoutPoc
